import Mathlib

/-!
Verification of the `contractus_service/validator.py` contract-validation
engine.  The Python module is shallowly embedded: pandas dataframes become
explicit column-major tables of tagged scalar values, floating point numbers
become exact rationals, and every operation of the source that can raise an
exception is modelled as an `Except`-valued function whose result is matched
at the same place where the source has its `try/except` handler.
-/

namespace Contractus

/-- Scalar cell values of a row set.  JSON input rows carry `null`, booleans,
numbers and strings; `ts` is the value form produced by datetime coercion
(`pd.to_datetime`), with the timestamp measured in seconds since the epoch as
an exact rational. -/
inductive Value : Type
  | null : Value
  | bool : Bool → Value
  | num : ℚ → Value
  | str : String → Value
  | ts : ℚ → Value
deriving DecidableEq

/-- A row is a finite mapping from column names to scalar values, as an
association list in insertion order (Python dicts preserve insertion order and
cannot repeat a key; lookups take the first binding). -/
def Row : Type := List (String × Value)

/-- The `sla` block of a contract: `contract.get("sla") or {}` with the three
string-valued entries read by the validator; an absent entry behaves as the
empty string. -/
structure Sla where
  completeness : Option String
  freshness : Option String
  freshness_field : Option String
deriving DecidableEq

/-- A contract: the `schema` mapping (column name to declared type tag, in
insertion order) and the `sla` block.  `contract.get("schema") or {}` makes a
missing, `None` or empty schema all behave as the empty mapping, so the model
represents all of them as the empty list. -/
structure Contract where
  schema : List (String × String)
  sla : Sla
deriving DecidableEq

/-- A structured SLA violation record.  The source appends dictionaries with a
`dimension` key of `"completeness"` (with `actual`/`expected` strings) or
`"freshness"` (with `actual_seconds`/`expected`); the constructor plays the
role of the `dimension` tag. -/
inductive Violation : Type
  | completeness : String → String → Violation
  | freshness : Int → String → Violation
deriving DecidableEq

/-- Dimension tag of a violation record, as the string stored under the
`dimension` key in the source. -/
def Violation.dimension : Violation → String
  | .completeness _ _ => "completeness"
  | .freshness _ _ => "freshness"

/-- The verdict returned by `validate_rows`. -/
structure Verdict where
  status : String
  warnings : List String
  errors : List String
  violations : List Violation
deriving DecidableEq

/-! ### Python string primitives

The Python string operations used by the validator (`str.strip`,
`str.replace`, `str.lower`, `float(...)`, `int(...)` of a digit string,
`re.match`) are re-implemented below by structural recursion on character
lists so that the kernel can evaluate them inside `decide`. -/

/-- Python `str.strip()`: drop whitespace from both ends. -/
def pyStrip (s : String) : String :=
  ⟨((s.data.dropWhile Char.isWhitespace).reverse.dropWhile Char.isWhitespace).reverse⟩

/-- One fuel-indexed pass of Python `str.replace`: replace every
non-overlapping occurrence of `pat` (non-empty) in `s` by `rep`, scanning left
to right. -/
def replaceAux : Nat → List Char → List Char → List Char → List Char
  | 0, s, _, _ => s
  | _ + 1, [], _, _ => []
  | n + 1, c :: rest, pat, rep =>
      if pat ≠ [] ∧ (c :: rest).take pat.length = pat then
        rep ++ replaceAux n ((c :: rest).drop pat.length) pat rep
      else
        c :: replaceAux n rest pat rep

/-- Python `s.replace(pat, rep)` for a non-empty pattern. -/
def pyReplace (s pat rep : String) : String :=
  ⟨replaceAux s.data.length s.data pat.data rep.data⟩

/-- Python `str.lower()` restricted to ASCII letters, which is all the type
tags of `TYPE_MAP` require. -/
def pyLower (s : String) : String := ⟨s.data.map Char.toLower⟩

/-- Numeric value of a list of ASCII digits. -/
def natOfDigits (cs : List Char) : Nat :=
  cs.foldl (fun a c => a * 10 + (c.toNat - ('0').toNat)) 0

/-- Parse an optional sign, returning the sign as a rational and the rest. -/
def parseSign : List Char → ℚ × List Char
  | '+' :: r => (1, r)
  | '-' :: r => (-1, r)
  | cs => (1, cs)

/-- Model of Python `float(s)` on finite decimal literals: optional
whitespace, optional sign, a mantissa `digits[.digits]` or `.digits`, and an
optional exponent `e`/`E` with optional sign.  The special tokens
`inf`/`infinity`/`nan` and digit-group underscores accepted by Python have no
finite-rational meaning and are outside the model. -/
def parsePyFloat (s : String) : Option ℚ :=
  let cs := (pyStrip s).data
  let (sign, cs) := parseSign cs
  let intDigits := cs.takeWhile Char.isDigit
  let rest := cs.drop intDigits.length
  let fracStep : Option (List Char × List Char) :=
    match rest with
    | '.' :: r2 =>
        let fd := r2.takeWhile Char.isDigit
        if intDigits = [] ∧ fd = [] then none
        else some (fd, r2.drop fd.length)
    | _ => if intDigits = [] then none else some ([], rest)
  match fracStep with
  | none => none
  | some (fracDigits, rest2) =>
      let mant : ℚ :=
        (natOfDigits (intDigits ++ fracDigits) : ℚ) / ((10 : ℚ) ^ fracDigits.length)
      match rest2 with
      | [] => some (sign * mant)
      | e :: r3 =>
          if e = 'e' ∨ e = 'E' then
            let (esign, r4) := parseSign r3
            let eds := r4.takeWhile Char.isDigit
            if eds = [] ∨ r4.drop eds.length ≠ [] then none
            else if esign = 1 then
              some (sign * mant * ((10 : ℚ) ^ natOfDigits eds))
            else
              some (sign * mant / ((10 : ℚ) ^ natOfDigits eds))
          else none

/-- Model of the anchored regular-expression match of lines 63-64: an anchored prefix match of
one or more ASCII digits, optional whitespace, then a unit letter; trailing
characters are ignored because the pattern has no end anchor.  Returns the
integer amount and the unit letter. -/
def matchFreshness (s : String) : Option (Nat × Char) :=
  let digits := s.data.takeWhile Char.isDigit
  if digits = [] then none
  else
    let rest := (s.data.drop digits.length).dropWhile Char.isWhitespace
    match rest with
    | c :: _ => if c ∈ ['s', 'm', 'h', 'd'] then some (natOfDigits digits, c) else none
    | [] => none

/-- Seconds denoted by one freshness unit letter:
`{"s":1,"m":60,"h":3600,"d":86400}[unit]`.  The fall-through value `0` is
unreachable because `matchFreshness` only yields the four listed letters. -/
def unitSeconds (c : Char) : Nat :=
  if c = 's' then 1 else if c = 'm' then 60 else if c = 'h' then 3600
  else if c = 'd' then 86400 else 0

/-! ### Timestamp parsing

`pd.to_datetime(..., errors="coerce")` is modelled as a total per-value parse
to `Option ℚ` (seconds since the epoch): unparsable values become `none`
(NaT).  The permissive dateutil parser is modelled on ISO-style literals
`YYYY-MM-DD`, optionally followed by `T` or a space and `HH:MM[:SS]`; numbers
are epoch nanoseconds (the pandas default unit); booleans and all other string
shapes are treated as unparsable.  Dtype-level corner cases of pandas (such as
an all-boolean column making `to_datetime` raise) are outside the model, which
keeps `errors="coerce"` total as its documentation describes. -/

/-- Days from 1970-01-01 of a proleptic Gregorian civil date, by the standard
era-decomposition algorithm, using floor division. -/
def daysFromCivil (y m d : Int) : Int :=
  let y' := if m ≤ 2 then y - 1 else y
  let era := Int.ediv y' 400
  let yoe := y' - era * 400
  let mp := if 2 < m then m - 3 else m + 9
  let doy := Int.ediv (153 * mp + 2) 5 + d - 1
  let doe := yoe * 365 + Int.ediv yoe 4 - Int.ediv yoe 100 + doy
  era * 146097 + doe - 719468

/-- Whether a Gregorian year is a leap year. -/
def isLeapYear (y : Int) : Bool :=
  y % 4 = 0 ∧ (y % 100 ≠ 0 ∨ y % 400 = 0)

/-- Number of days in a month. -/
def daysInMonth (y m : Int) : Int :=
  if m = 2 then (if isLeapYear y then 29 else 28)
  else if m = 4 ∨ m = 6 ∨ m = 9 ∨ m = 11 then 30 else 31

/-- A run of one to `w` digits read as a number, total on valid input. -/
def digitField (cs : List Char) (w : Nat) : Option Nat :=
  if cs ≠ [] ∧ cs.length ≤ w ∧ cs.all Char.isDigit then some (natOfDigits cs) else none

/-- Split a character list at every occurrence of a separator character. -/
def splitOnChar : List Char → Char → List Char → List (List Char)
  | [], _, acc => [acc.reverse]
  | c :: rest, sep, acc =>
      if c = sep then acc.reverse :: splitOnChar rest sep []
      else splitOnChar rest sep (c :: acc)

/-- Parse `HH:MM` or `HH:MM:SS` into seconds after midnight. -/
def parseTimeOfDay (cs : List Char) : Option ℚ :=
  match splitOnChar cs ':' [] with
  | [h, mi] =>
      match digitField h 2, digitField mi 2 with
      | some hh, some mm =>
          if hh < 24 ∧ mm < 60 then some ((hh : ℚ) * 3600 + (mm : ℚ) * 60) else none
      | _, _ => none
  | [h, mi, se] =>
      match digitField h 2, digitField mi 2, digitField se 2 with
      | some hh, some mm, some ss =>
          if hh < 24 ∧ mm < 60 ∧ ss < 60 then
            some ((hh : ℚ) * 3600 + (mm : ℚ) * 60 + (ss : ℚ))
          else none
      | _, _, _ => none
  | _ => none

/-- Parse `YYYY-MM-DD` into epoch seconds at midnight. -/
def parseDatePart (cs : List Char) : Option ℚ :=
  match splitOnChar cs '-' [] with
  | [y, m, d] =>
      match digitField y 4, digitField m 2, digitField d 2 with
      | some yy, some mm, some dd =>
          if y.length = 4 ∧ 1 ≤ mm ∧ mm ≤ 12 ∧ 1 ≤ dd ∧
              (dd : Int) ≤ daysInMonth (yy : Int) (mm : Int) then
            some ((daysFromCivil (yy : Int) (mm : Int) (dd : Int) : ℚ) * 86400)
          else none
      | _, _, _ => none
  | _ => none

/-- Split an ISO-style literal into its date part and optional time part at
the first `T` or space. -/
def splitDateTime (cs : List Char) : List Char × Option (List Char) :=
  match splitOnChar cs 'T' [] with
  | [d, t] => (d, some t)
  | [onePart] =>
      match splitOnChar onePart ' ' [] with
      | [d, t] => (d, some t)
      | _ => (onePart, none)
  | _ => ([], some [])

/-- Parse an ISO-style datetime string literal into epoch seconds. -/
def parseISO (s : String) : Option ℚ :=
  let (datePart, timePart) := splitDateTime (pyStrip s).data
  match parseDatePart datePart with
  | none => none
  | some base =>
      match timePart with
      | none => some base
      | some t =>
          match parseTimeOfDay t with
          | none => none
          | some tod => some (base + tod)

/-- Per-value model of `pd.to_datetime(v, errors="coerce")`, in epoch
seconds. -/
def parseTimestamp : Value → Option ℚ
  | .null => none
  | .ts t => some t
  | .bool _ => none
  | .num q => some (q / 1000000000)
  | .str s => parseISO s

/-! ### The dataframe model

`pd.DataFrame(rows)` builds a column-major table: the column universe is the
union of the row keys in first-appearance order, and a row without a key
contributes `NaN` (modelled as `Value.null`) to that column. -/

/-- A dataframe: the number of rows and the columns in order, each holding one
value per row. -/
structure DataFrame where
  nrows : Nat
  cols : List (String × List Value)
deriving DecidableEq

/-- Column names of a dataframe, in order (`df.columns`). -/
def dfColNames (df : DataFrame) : List String := df.cols.map Prod.fst

/-- Values of one column (`df[c]`); the empty list if the column is absent. -/
def getCol (df : DataFrame) (c : String) : List Value :=
  ((df.cols.find? (fun p => p.1 = c)).map Prod.snd).getD []

/-- In-place single-column assignment `df[c] = vs` for a present column. -/
def setCol (df : DataFrame) (c : String) (vs : List Value) : DataFrame :=
  ⟨df.nrows, df.cols.map (fun p => if p.1 = c then (c, vs) else p)⟩

/-- Column universe of a row list, in first-appearance order. -/
def rowKeys (rows : List Row) : List String :=
  rows.foldl (fun acc r => r.foldl (fun a kv => if kv.1 ∈ a then a else a ++ [kv.1]) acc) []

/-- Model of `pd.DataFrame(rows)`. -/
def mkDataFrame (rows : List Row) : DataFrame :=
  ⟨rows.length,
   (rowKeys rows).map (fun c => (c, rows.map (fun r => (List.lookup c r).getD Value.null)))⟩

/-- Whether a value is missing (`pd.isna`): only nulls (`None`/`NaN`/`NaT`/
`NA`) are missing. -/
def isna : Value → Bool
  | .null => true
  | _ => false

/-! ### Schema coercion (validator.py lines 4-46) -/

/-- The `TYPE_MAP` dictionary of the source, as an ordered association
list. -/
def TYPE_MAP : List (String × String) :=
  [("string", "string"), ("float", "float"), ("double", "float"),
   ("number", "float"), ("integer", "Int64"), ("int", "Int64"),
   ("boolean", "boolean"), ("bool", "boolean"), ("datetime", "datetime64[ns]"),
   ("timestamp", "datetime64[ns]"), ("date", "datetime64[ns]")]

/-- `_pandas_dtype_for`: look up the lowercased tag, defaulting to
`"string"`. -/
def _pandas_dtype_for (t : String) : String :=
  (List.lookup (pyLower t) TYPE_MAP).getD ("string")

/-- Exception text of a failed boolean coercion
(`pandas.arrays.BooleanArray` rejects anything that is not a boolean, a
missing value or a number equal to 0 or 1). -/
def bexc : String := "Need to pass bool-like values"

/-- Exception text of a failed `Int64` coercion; the model uses one fixed
pandas message for every failing value kind. -/
def iexc : String := "object cannot be converted to an IntegerDtype"

/-- Exception text of a failed float coercion of the string `s`. -/
def fexc (s : String) : String :=
  "could not convert string to float: '" ++ s ++ "'"

/-- Whether a value is accepted by `astype("boolean")`: booleans, missing
values, and numbers equal to 0 or 1. -/
def isBoolLike : Value → Bool
  | .null => true
  | .bool _ => true
  | .num q => q = 0 ∨ q = 1
  | _ => false

/-- Result of a successful boolean cast of one value. -/
def toBoolVal : Value → Value
  | .bool b => .bool b
  | .num q => .bool (q ≠ 0)
  | _ => .null

/-- Whether a value is accepted by `astype("Int64")`: missing values,
booleans, and numbers with integral value. -/
def isIntLike : Value → Bool
  | .null => true
  | .bool _ => true
  | .num q => q.den = 1
  | _ => false

/-- Result of a successful `Int64` cast of one value. -/
def toIntVal : Value → Value
  | .bool b => .num (if b then 1 else 0)
  | .num q => .num q
  | _ => .null

/-- The first string of the column that `float(...)` cannot parse, if any. -/
def firstBadFloat (vs : List Value) : Option String :=
  vs.findSome? (fun v =>
    match v with
    | .str s => if (parsePyFloat s).isNone then some s else none
    | .ts _ => some ("ts")
    | _ => none)

/-- Result of a successful float cast of one value. -/
def toFloatVal : Value → Value
  | .bool b => .num (if b then 1 else 0)
  | .num q => .num q
  | .str s => .num ((parsePyFloat s).getD 0)
  | _ => .null

/-- Python textual form of a scalar, used by the `string` cast; only the
nullness of the result matters downstream. -/
def pyStr : Value → String
  | .bool b => if b then ("True") else ("False")
  | .num q => toString q
  | .str s => s
  | _ => ""

/-- Result of a `string` cast of one value (missing values stay missing). -/
def toStrVal : Value → Value
  | .null => .null
  | v => .str (pyStr v)

/-- Model of `df[col].astype(pdt)` for the non-datetime pandas dtypes: the
whole column either converts or raises, exactly as `Series.astype` does.  The
datetime case is separate because the source uses `pd.to_datetime` with
`errors="coerce"` there. -/
def astypeNonDt (pdt : String) (vs : List Value) : Except String (List Value) :=
  if pdt = "boolean" then
    if vs.any (fun v => !(isBoolLike v)) then .error bexc
    else .ok (vs.map toBoolVal)
  else if pdt = "Int64" then
    if vs.any (fun v => !(isIntLike v)) then .error iexc
    else .ok (vs.map toIntVal)
  else if pdt = "float" then
    match firstBadFloat vs with
    | some s => .error (fexc s)
    | none => .ok (vs.map toFloatVal)
  else .ok (vs.map toStrVal)

/-- Datetime conversion of one value: parse failures become `NaT`. -/
def toDt (v : Value) : Value :=
  match parseTimestamp v with
  | some t => .ts t
  | none => .null

/-! ### Error, warning and violation message constructors -/

/-- Error `"Missing required column '<c>'"`. -/
def missMsg (c : String) : String := "Missing required column '" ++ c ++ "'"

/-- Error `"Column '<c>' has invalid datetime values"`. -/
def dtMsg (c : String) : String := "Column '" ++ c ++ "' has invalid datetime values"

/-- Error `"Column '<c>' failed coercion to <pdt>: <ex>"`. -/
def failMsg (c pdt ex : String) : String :=
  "Column '" ++ c ++ "' failed coercion to " ++ pdt ++ ": " ++ ex

/-- Warning `"Could not parse completeness SLA '<comp>'"`. -/
def compWarn (comp : String) : String :=
  "Could not parse completeness SLA '" ++ comp ++ "'"

/-- Warning `"Could not parse freshness SLA '<fr>'"`. -/
def freshWarn (fr : String) : String :=
  "Could not parse freshness SLA '" ++ fr ++ "'"

/-- Error `"No valid timestamps in '<f>' to assess freshness"`. -/
def noTsMsg (f : String) : String :=
  "No valid timestamps in '" ++ f ++ "' to assess freshness"

/-- Error `"Freshness violated: latest '<f>' is older than <fr>"`. -/
def freshViolMsg (f fr : String) : String :=
  "Freshness violated: latest '" ++ f ++ "' is older than " ++ fr

/-! ### Number formatting for completeness messages -/

/-- Round a rational to the nearest integer, ties to even, as Python `format`
does on the decimal expansion. -/
def roundHalfEven (q : ℚ) : Int :=
  let f := q.floor
  let frac := q - (f : ℚ)
  if frac < 1 / 2 then f
  else if 1 / 2 < frac then f + 1
  else if f % 2 = 0 then f else f + 1

/-- Zero-padded two-digit decimal string. -/
def pad2 (k : Nat) : String := if k < 10 then ("0") ++ toString k else toString k

/-- Format a non-negative rational with two decimal places. -/
def formatQ2pos (q : ℚ) : String :=
  let n := (roundHalfEven (q * 100)).toNat
  toString (n / 100) ++ "." ++ pad2 (n % 100)

/-- Model of the Python two-decimal fixed-point format of a float, on exact rationals. -/
def formatQ2 (q : ℚ) : String :=
  if q < 0 then ("-") ++ formatQ2pos (-q) else formatQ2pos q

/-- Error `"Completeness <r>% below target <t>%"` with both numbers formatted
to two decimal places. -/
def compMsg (r t : ℚ) : String :=
  "Completeness " ++ formatQ2 r ++ "% below target " ++ formatQ2 t ++ "%"

/-! ### The coercion loop (lines 31-46) -/

/-- Errors contributed by the loop body for a column that is present, given
the column's current values: the datetime branch converts with
`errors="coerce"` and reports invalid values when the converted column has any
missing entry; the other branches run `astype` under the `try` and turn a
raised exception into a coercion error. -/
def entryErrsPure (c t : String) (vs : List Value) : List String :=
  let pdt := _pandas_dtype_for t
  if pdt = "datetime64[ns]" then
    if (vs.map toDt).any isna then [dtMsg c] else []
  else
    match astypeNonDt pdt vs with
    | .ok _ => []
    | .error ex => [failMsg c pdt ex]

/-- New values of a present column after its loop body, when the body does not
raise (on a raise the assignment never happens and the column is
unchanged). -/
def entryNewVals (t : String) (vs : List Value) : List Value :=
  let pdt := _pandas_dtype_for t
  if pdt = "datetime64[ns]" then vs.map toDt
  else
    match astypeNonDt pdt vs with
    | .ok vs2 => vs2
    | .error _ => vs

/-- One iteration of the `for col, typ in schema.items()` loop: a missing
column only records its error; a present column is coerced in place and its
errors recorded. -/
def entryStep (df : DataFrame) (c t : String) : DataFrame × List String :=
  if c ∈ dfColNames df then
    (setCol df c (entryNewVals t (getCol df c)), entryErrsPure c t (getCol df c))
  else (df, [missMsg c])

/-- The whole coercion loop over the schema, in order, threading the dataframe
and accumulating errors. -/
def coerceGo : List (String × String) → DataFrame → DataFrame × List String
  | [], df => (df, [])
  | e :: rest, df =>
      let r1 := entryStep df e.1 e.2
      let r2 := coerceGo rest r1.1
      (r2.1, r1.2 ++ r2.2)

/-- The dataframe after schema coercion of a contract over a row list. -/
def coercedDf (con : Contract) (rows : List Row) : DataFrame :=
  (coerceGo con.schema (mkDataFrame rows)).1

/-! ### SLA evaluator, completeness (lines 48-58) -/

/-- The epsilon of the completeness comparison, `1e-9`. -/
def epsQ : ℚ := 1 / 1000000000

/-- The string passed to `float(...)`:
`comp.replace(">=", "").replace("%", "").strip()`. -/
def stripComp (comp : String) : String :=
  pyStrip (pyReplace (pyReplace comp (">=") ("")) ("%") (""))

/-- Whether row `i` of the dataframe has a non-missing entry in every listed
column (`df[required_cols].notnull().all(axis=1)` at row `i`). -/
def rowAllNotnull (df : DataFrame) (keys : List String) (i : Nat) : Bool :=
  keys.all (fun c => !(isna ((getCol df c).getD i Value.null)))

/-- `df[required_cols].notnull().all(axis=1).mean() * 100.0` as an exact
rational: the percentage of rows whose listed columns are all
non-missing. -/
def completenessRatioQ (df : DataFrame) (keys : List String) : ℚ :=
  (((List.range df.nrows).countP (rowAllNotnull df keys) : ℚ) / (df.nrows : ℚ)) * 100

/-- Line 53 of the source, which raises (`KeyError`) when a required column is
absent from `df` and short-circuits to `100.0` for an empty column list. -/
def ratioExc (df : DataFrame) (keys : List String) : Except Unit ℚ :=
  if keys = [] then .ok 100
  else if keys.all (fun c => c ∈ dfColNames df) then .ok (completenessRatioQ df keys)
  else .error ()

/-- The body of the completeness `try` block: parse the target, compute the
ratio, and emit the error and violation when `ratio + 1e-9 < target`.  Any
raise inside (an unparsable number or a missing required column) surfaces as
`Except.error` to be caught by the handler. -/
def completenessCheck (comp : String) (keys : List String) (df : DataFrame) :
    Except Unit (List String × List Violation) :=
  match parsePyFloat (stripComp comp) with
  | none => .error ()
  | some target =>
      match ratioExc df keys with
      | .error e => .error e
      | .ok ratio =>
          if ratio + epsQ < target then
            .ok ([compMsg ratio target],
                 [Violation.completeness (formatQ2 ratio ++ "%") comp])
          else .ok ([], [])

/-- The completeness section: skipped when the stripped expression is empty;
otherwise the `try` body runs and an exception is converted into the
completeness warning.  Returns `(warnings, errors, violations)`
contributions. -/
def completenessPhase (sla : Sla) (keys : List String) (df : DataFrame) :
    List String × List String × List Violation :=
  let comp := pyStrip (sla.completeness.getD (""))
  if comp = "" then ([], [], [])
  else
    match completenessCheck comp keys df with
    | .ok (es, vs) => ([], es, vs)
    | .error _ => ([compWarn comp], [], [])

/-! ### SLA evaluator, freshness (lines 60-82) -/

/-- `now - max_ts` in seconds; both sides are already offset-naive in the
model, mirroring the tz-normalisation of lines 74-76. -/
def ageSeconds (now maxTs : ℚ) : ℚ := now - maxTs

/-- Python `int(...)` of a rational: truncation toward zero. -/
def truncQ (q : ℚ) : Int := if q < 0 then -((-q).floor) else q.floor

/-- The freshness section.  `now` is the value of `pd.Timestamp.utcnow()`, the
wall-clock reading the source makes at line 73, passed in explicitly so the
evaluation is a pure function of its inputs.  Returns
`(warnings, errors, violations)` contributions. -/
def freshnessPhase (sla : Sla) (df : DataFrame) (now : ℚ) :
    List String × List String × List Violation :=
  let fr := pyStrip (sla.freshness.getD (""))
  let ff := pyStrip (sla.freshness_field.getD (""))
  if fr ≠ "" ∧ ff ≠ "" ∧ ff ∈ dfColNames df then
    match matchFreshness fr with
    | some (amount, unit) =>
        let seconds := unitSeconds unit * amount
        let ts := (getCol df ff).map parseTimestamp
        match (ts.filterMap id).max? with
        | none => ([], [noTsMsg ff], [])
        | some maxTs =>
            let age := ageSeconds now maxTs
            if (seconds : ℚ) < age then
              ([], [freshViolMsg ff fr], [Violation.freshness (truncQ age) fr])
            else ([], [], [])
    | none => ([freshWarn fr], [], [])
  else ([], [], [])

/-! ### validate_rows (lines 21-86) -/

/-- The validation engine.  An empty or missing schema returns the hard
failure immediately; otherwise the coercion loop runs, then the completeness
and freshness sections, and the verdict is assembled with `status = "fail"`
exactly when the error list is non-empty. -/
def validate_rows (con : Contract) (rows : List Row) (now : ℚ) : Verdict :=
  if con.schema = [] then
    ⟨"fail", [], ["Missing 'schema' in contract"], []⟩
  else
    let df0 := mkDataFrame rows
    let r1 := coerceGo con.schema df0
    let keys := con.schema.map Prod.fst
    let p2 := completenessPhase con.sla keys r1.1
    let p3 := freshnessPhase con.sla r1.1 now
    let errors := r1.2 ++ p2.2.1 ++ p3.2.1
    ⟨if errors = [] then ("pass") else ("fail"),
     p2.1 ++ p3.1, errors, p2.2.2 ++ p3.2.2⟩

/-! ## Sanity checks of the embedded primitives -/

example : parseISO ("1970-01-02 00:00:30") = some 86430 := by with_unfolding_all rfl

example : parseISO ("2020-01-02") = some 1577923200 := by with_unfolding_all rfl

example : parsePyFloat ("  -1.5e2 ") = some (-150) := by with_unfolding_all rfl

example : stripComp (">=95%") = "95" := by decide

example : matchFreshness ("24h") = some (24, 'h') := by decide

example : formatQ2 ((100 : ℚ) / 3) = "33.33" := by with_unfolding_all rfl

/-! ## Distinguishing the engine's message strings

Every message the engine can emit has a fixed literal prefix and (except for
the interpolated tails) a fixed literal suffix; two messages of different
shapes are told apart by comparing a few characters at one end. -/

/-- Strings differing in their first `k` characters are different. -/
theorem ne_of_take_ne {a b : String} (k : Nat)
    (h : a.data.take k ≠ b.data.take k) : a ≠ b :=
  fun he => h (by rw [he])

/-- Strings differing in their last `k` characters are different. -/
theorem ne_of_rtake_ne {a b : String} (k : Nat)
    (h : a.data.reverse.take k ≠ b.data.reverse.take k) : a ≠ b :=
  fun he => h (by rw [he])

/-- The last `k` characters of `X ++ S` are those of `S` when `S` is long
enough. -/
theorem rtake_append (X S : List Char) (k : Nat) (hk : k ≤ S.length) :
    (X ++ S).reverse.take k = S.reverse.take k := by
  rw [List.reverse_append]
  exact List.take_append_of_le_length (by simpa using hk)

/-- Character-list form of `dtMsg`. -/
theorem dtMsg_data (c : String) :
    (dtMsg c).data =
      ("Column '").data ++ c.data ++ ("' has invalid datetime values").data := by
  simp [dtMsg, String.data_append]

/-- Character-list form of `missMsg`. -/
theorem missMsg_data (c : String) :
    (missMsg c).data =
      ("Missing required column '").data ++ c.data ++ ("'").data := by
  simp [missMsg, String.data_append]

/-- Character-list form of `failMsg`. -/
theorem failMsg_data (c pdt ex : String) :
    (failMsg c pdt ex).data =
      ("Column '").data ++ c.data ++ ("' failed coercion to ").data ++ pdt.data ++
        (": ").data ++ ex.data := by
  simp [failMsg, String.data_append]

/-- Equal `dtMsg` messages come from equal column names. -/
theorem dtMsg_inj {c c' : String} (h : dtMsg c = dtMsg c') : c = c' := by
  have hd := congrArg String.data h
  rw [dtMsg_data, dtMsg_data] at hd
  exact String.ext (List.append_cancel_left (List.append_cancel_right hd))

/-- An invalid-datetime message is never a missing-column message. -/
theorem dtMsg_ne_missMsg (c c' : String) : dtMsg c ≠ missMsg c' := by
  apply ne_of_take_ne 1
  rw [dtMsg_data, missMsg_data,
      List.append_assoc, List.append_assoc,
      List.take_append_of_le_length (by decide),
      List.take_append_of_le_length (by decide)]
  decide

/-- An invalid-datetime message is never a failed-coercion message whose
exception text is `bexc`, `iexc` or `fexc s`: the last characters differ
(`bexc` needs the final 29 compared, the others the final one). -/
theorem dtMsg_ne_failMsg (c c' pdt ex : String)
    (hex : ex = bexc ∨ ex = iexc ∨ ∃ s, ex = fexc s) :
    dtMsg c ≠ failMsg c' pdt ex := by
  have hdt : (dtMsg c).data =
      (("Column '").data ++ c.data) ++ ("' has invalid datetime values").data := by
    simp [dtMsg, String.data_append]
  rcases hex with hb | hi | ⟨s, hf⟩
  · subst hb
    apply ne_of_rtake_ne 29
    have hfm : (failMsg c' pdt bexc).data =
        (("Column '").data ++ c'.data ++ ("' failed coercion to ").data ++ pdt.data ++
          (": ").data) ++ bexc.data := by
      simp [failMsg, String.data_append]
    rw [hdt, hfm, rtake_append _ _ 29 (by decide), rtake_append _ _ 29 (by decide)]
    decide
  · subst hi
    apply ne_of_rtake_ne 1
    have hfm : (failMsg c' pdt iexc).data =
        (("Column '").data ++ c'.data ++ ("' failed coercion to ").data ++ pdt.data ++
          (": ").data) ++ iexc.data := by
      simp [failMsg, String.data_append]
    rw [hdt, hfm, rtake_append _ _ 1 (by decide), rtake_append _ _ 1 (by decide)]
    decide
  · subst hf
    apply ne_of_rtake_ne 1
    have hfm : (failMsg c' pdt (fexc s)).data =
        (("Column '").data ++ c'.data ++ ("' failed coercion to ").data ++ pdt.data ++
          (": ").data ++ ("could not convert string to float: '").data ++ s.data) ++
          ("'").data := by
      simp [failMsg, fexc, String.data_append]
    rw [hdt, hfm, rtake_append _ _ 1 (by decide), rtake_append _ _ 1 (by decide)]
    decide

/-- An invalid-datetime message is never a completeness-violation message. -/
theorem dtMsg_ne_compMsg (c : String) (r t : ℚ) : dtMsg c ≠ compMsg r t := by
  apply ne_of_take_ne 3
  have h1 : (dtMsg c).data = ("Column '").data ++ (c.data ++ ("' has invalid datetime values").data) := by
    simp [dtMsg, String.data_append]
  have h2 : (compMsg r t).data = ("Completeness ").data ++
      ((formatQ2 r).data ++ (("% below target ").data ++ ((formatQ2 t).data ++ ("%").data))) := by
    simp [compMsg, String.data_append]
  rw [h1, h2, List.take_append_of_le_length (by decide),
      List.take_append_of_le_length (by decide)]
  decide

/-- An invalid-datetime message is never a freshness-violation message. -/
theorem dtMsg_ne_freshViolMsg (c f fr : String) : dtMsg c ≠ freshViolMsg f fr := by
  apply ne_of_take_ne 1
  have h1 : (dtMsg c).data = ("Column '").data ++ (c.data ++ ("' has invalid datetime values").data) := by
    simp [dtMsg, String.data_append]
  have h2 : (freshViolMsg f fr).data = ("Freshness violated: latest '").data ++
      (f.data ++ (("' is older than ").data ++ fr.data)) := by
    simp [freshViolMsg, String.data_append]
  rw [h1, h2, List.take_append_of_le_length (by decide),
      List.take_append_of_le_length (by decide)]
  decide

/-- An invalid-datetime message is never a no-valid-timestamps message. -/
theorem dtMsg_ne_noTsMsg (c f : String) : dtMsg c ≠ noTsMsg f := by
  apply ne_of_take_ne 1
  have h1 : (dtMsg c).data = ("Column '").data ++ (c.data ++ ("' has invalid datetime values").data) := by
    simp [dtMsg, String.data_append]
  have h2 : (noTsMsg f).data = ("No valid timestamps in '").data ++
      (f.data ++ ("' to assess freshness").data) := by
    simp [noTsMsg, String.data_append]
  rw [h1, h2, List.take_append_of_le_length (by decide),
      List.take_append_of_le_length (by decide)]
  decide

/-- A completeness-SLA warning is never a freshness-SLA warning: the two
literal prefixes differ at character 16. -/
theorem compWarn_ne_freshWarn (a b : String) : compWarn a ≠ freshWarn b := by
  apply ne_of_take_ne 17
  have h1 : (compWarn a).data =
      ("Could not parse completeness SLA '").data ++ (a.data ++ ("'").data) := by
    simp [compWarn, String.data_append]
  have h2 : (freshWarn b).data =
      ("Could not parse freshness SLA '").data ++ (b.data ++ ("'").data) := by
    simp [freshWarn, String.data_append]
  rw [h1, h2, List.take_append_of_le_length (by decide),
      List.take_append_of_le_length (by decide)]
  decide

/-! ## Dataframe invariance lemmas -/

/-- Replacing a column's values does not change the column names. -/
theorem map_fst_setCol (l : List (String × List Value)) (c : String) (vs : List Value) :
    (l.map (fun p => if p.1 = c then (c, vs) else p)).map Prod.fst = l.map Prod.fst := by
  induction l with
  | nil => rfl
  | cons p rest ih =>
      simp only [List.map_cons, ih]
      by_cases h : p.1 = c <;> simp [h]

/-- `setCol` preserves the column names. -/
theorem dfColNames_setCol (df : DataFrame) (c : String) (vs : List Value) :
    dfColNames (setCol df c vs) = dfColNames df := by
  simpa [dfColNames, setCol] using map_fst_setCol df.cols c vs

/-- `find?` over a `setCol`-rewritten column list is unchanged at other
column names. -/
theorem find?_setCol_ne (l : List (String × List Value)) (c : String) (vs : List Value)
    (c' : String) (h : c' ≠ c) :
    (l.map (fun p => if p.1 = c then (c, vs) else p)).find? (fun p => p.1 = c') =
      l.find? (fun p => p.1 = c') := by
  induction l with
  | nil => rfl
  | cons p rest ih =>
      by_cases hp : p.1 = c
      · have hpc : ¬ (p.1 = c') := by rw [hp]; exact fun hcc => h hcc.symm
        simp [List.find?, hp, hpc, ih, h.symm]
      · by_cases hp' : p.1 = c'
        · simp [List.find?, hp, hp', h]
        · simp [List.find?, hp, hp', h, ih]

/-- `setCol` does not change the values of other columns. -/
theorem getCol_setCol_ne (df : DataFrame) (c : String) (vs : List Value)
    (c' : String) (h : c' ≠ c) :
    getCol (setCol df c vs) c' = getCol df c' := by
  simp [getCol, setCol, find?_setCol_ne df.cols c vs c' h]

/-- The errors of one loop iteration. -/
theorem entryStep_snd (df : DataFrame) (c t : String) :
    (entryStep df c t).2 =
      if c ∈ dfColNames df then entryErrsPure c t (getCol df c) else [missMsg c] := by
  unfold entryStep
  split <;> rfl

/-- One loop iteration preserves the column names. -/
theorem entryStep_colNames (df : DataFrame) (c t : String) :
    dfColNames (entryStep df c t).1 = dfColNames df := by
  unfold entryStep
  split <;> simp [dfColNames_setCol]

/-- One loop iteration does not change the values of other columns. -/
theorem entryStep_getCol_ne (df : DataFrame) (c t c' : String) (h : c' ≠ c) :
    getCol (entryStep df c t).1 c' = getCol df c' := by
  unfold entryStep
  split <;> simp [getCol_setCol_ne df c _ c' h]

/-- The whole coercion loop preserves the column names. -/
theorem coerceGo_colNames (l : List (String × String)) (df : DataFrame) :
    dfColNames (coerceGo l df).1 = dfColNames df := by
  induction l generalizing df with
  | nil => rfl
  | cons e rest ih => simp [coerceGo, ih, entryStep_colNames]

/-! ## Verdict assembly -/

/-- The status of every verdict is determined by the emptiness of its error
list, in both the early missing-schema return and the final assembly. -/
theorem statusSpec (con : Contract) (rows : List Row) (now : ℚ) :
    (validate_rows con rows now).status =
      (if (validate_rows con rows now).errors = [] then ("pass") else ("fail")) := by
  unfold validate_rows
  by_cases h : con.schema = [] <;> simp [h]

/-- C1: for every contract and row set, the verdict returned by
`validate_rows` has status `"fail"` if and only if its errors list is
non-empty, and status `"pass"` if and only if it is empty: status is a pure
function of the non-emptiness of `errors`. -/
theorem C1_status_iff_errors (con : Contract) (rows : List Row) (now : ℚ) :
    ((validate_rows con rows now).status = "fail" ↔
      (validate_rows con rows now).errors ≠ []) ∧
    ((validate_rows con rows now).status = "pass" ↔
      (validate_rows con rows now).errors = []) := by
  have h := statusSpec con rows now
  by_cases he : (validate_rows con rows now).errors = [] <;>
    simp only [he, if_pos, if_neg, ite_true, ite_false] at h <;> simp [h, he]

/-- C2: for every contract whose schema mapping is empty (or missing, which
`contract.get("schema") or {}` makes indistinguishable from empty), the
verdict is exactly the hard failure, with no coercion or SLA work
reflected in any field. -/
theorem C2_empty_schema (con : Contract) (rows : List Row) (now : ℚ)
    (h : con.schema = []) :
    validate_rows con rows now =
      ⟨"fail", [], ["Missing 'schema' in contract"], []⟩ := by
  unfold validate_rows
  simp [h]

/-- Witness for C2 at a concrete contract with an empty schema and a non-empty
row list. -/
theorem C2_empty_schema_witness :
    validate_rows ⟨[], ⟨some (">=95%"), none, none⟩⟩ [[("a", Value.num 1)]] 0 =
      ⟨"fail", [], ["Missing 'schema' in contract"], []⟩ :=
  C2_empty_schema _ _ _ rfl

/-- C8: `validate_rows` always returns a verdict with a definite status; in
the model every operation of the source that can raise is an `Except` whose
error is consumed by the same handler the source installs, and the function
is total. -/
theorem C8_total (con : Contract) (rows : List Row) (now : ℚ) :
    (validate_rows con rows now).status = "pass" ∨
      (validate_rows con rows now).status = "fail" := by
  rw [statusSpec con rows now]
  split <;> simp

/-- C9: the engine is deterministic given identical inputs: with the same
explicit `now`, the age in seconds, the whole freshness outcome, and the whole
verdict coincide between two evaluations. -/
theorem C9_deterministic (con : Contract) (rows : List Row) (t now now' : ℚ)
    (h : now = now') :
    ageSeconds now t = ageSeconds now' t ∧
    freshnessPhase con.sla (coercedDf con rows) now =
      freshnessPhase con.sla (coercedDf con rows) now' ∧
    validate_rows con rows now = validate_rows con rows now' := by
  subst h
  exact ⟨rfl, rfl, rfl⟩

/-- Witness for C9 at a concrete contract, row set and time. -/
theorem C9_deterministic_witness :
    ageSeconds 5 0 = ageSeconds 5 0 ∧
    freshnessPhase (Sla.mk none (some ("1h")) (some ("ts")))
        (coercedDf ⟨[("ts", "datetime")], ⟨none, some ("1h"), some ("ts")⟩⟩
          [[("ts", Value.str "1970-01-01")]]) 5 =
      freshnessPhase (Sla.mk none (some ("1h")) (some ("ts")))
        (coercedDf ⟨[("ts", "datetime")], ⟨none, some ("1h"), some ("ts")⟩⟩
          [[("ts", Value.str "1970-01-01")]]) 5 ∧
    validate_rows ⟨[("ts", "datetime")], ⟨none, some ("1h"), some ("ts")⟩⟩
        [[("ts", Value.str "1970-01-01")]] 5 =
      validate_rows ⟨[("ts", "datetime")], ⟨none, some ("1h"), some ("ts")⟩⟩
        [[("ts", Value.str "1970-01-01")]] 5 :=
  C9_deterministic ⟨[("ts", "datetime")], ⟨none, some ("1h"), some ("ts")⟩⟩
    [[("ts", Value.str "1970-01-01")]] 0 5 5 rfl

/-! ## Counterexamples against claims C3, C4, C5 and C7 as stated -/

/-- Counterexample to C3 as stated: a declared datetime column whose only raw
value is null.  The claim says a row whose raw value was already null must not
by itself trigger the invalid-datetime error, but the source tests
`df[col].isna().any()` on the converted column, where the null raw value has
become `NaT`, so the error is appended (and is the only error). -/
theorem C3_counterexample :
    validate_rows ⟨[("ts", "datetime")], ⟨none, none, none⟩⟩
        [[("ts", Value.null)]] 0 =
      ⟨"fail", [], ["Column 'ts' has invalid datetime values"], []⟩ ∧
    ((getCol (mkDataFrame [[("ts", Value.null)]]) ("ts")).all isna) = true := by
  exact ⟨by decide, by decide⟩

/-- Counterexample to C4 as stated: a declared boolean column containing the
string `"yes"`.  The claim says unparsable boolean values become null silently
with no recorded error, but `astype("boolean")` raises on any value that is
not bool-like and the handler records the coercion error. -/
theorem C4_counterexample :
    validate_rows ⟨[("flag", "bool")], ⟨none, none, none⟩⟩
        [[("flag", Value.str "yes")]] 0 =
      ⟨"fail", [],
       ["Column 'flag' failed coercion to boolean: Need to pass bool-like values"],
       []⟩ := by
  decide

/-- Counterexample to C5 as stated: a parseable completeness expression
`">=95%"` over an empty row set.  The claim says the warning appears exactly
when parsing the expression fails, but here the expression parses to `95` and
the warning still appears, because `df[required_cols]` raises a `KeyError`
inside the same `try` block. -/
theorem C5_counterexample :
    validate_rows ⟨[("a", "string")], ⟨some (">=95%"), none, none⟩⟩ [] 0 =
      ⟨"fail", ["Could not parse completeness SLA '>=95%'"],
       ["Missing required column 'a'"], []⟩ ∧
    parsePyFloat (stripComp (">=95%")) = some 95 := by
  exact ⟨by decide, by with_unfolding_all rfl⟩

/-- Counterexample to C7 as stated: the freshness expression `"1hh"` is not of
the form `<integer><unit>`, so the claim requires the warning to be appended
and the check skipped; but `re.match` has no end anchor, so the prefix `"1h"`
matches, no warning is appended, and the check runs (here reporting that the
field has no valid timestamps). -/
theorem C7_counterexample :
    validate_rows ⟨[("ts", "string")], ⟨none, some ("1hh"), some ("ts")⟩⟩
        [[("ts", Value.str "x")]] 0 =
      ⟨"fail", [], ["No valid timestamps in 'ts' to assess freshness"], []⟩ := by
  decide

/-! ## Shapes of the SLA phase outputs -/

/-- A completeness-phase warning is the completeness warning for the stripped
expression. -/
theorem completenessPhase_warn_shape {sla : Sla} {keys : List String} {df : DataFrame}
    {w : String} (hw : w ∈ (completenessPhase sla keys df).1) :
    w = compWarn (pyStrip (sla.completeness.getD (""))) := by
  unfold completenessPhase at hw
  simp only [] at hw
  split at hw
  · cases hw
  · split at hw
    · cases hw
    · simpa using hw

/-- A completeness-phase error is a completeness-violation message. -/
theorem completenessPhase_err_shape {sla : Sla} {keys : List String} {df : DataFrame}
    {e : String} (he : e ∈ (completenessPhase sla keys df).2.1) :
    ∃ r t, e = compMsg r t := by
  unfold completenessPhase at he
  simp only [] at he
  split at he
  · cases he
  · rename_i hmatch
    split at he
    · rename_i es vs hok
      unfold completenessCheck at hok
      split at hok
      · cases hok
      · rename_i target hp
        split at hok
        · cases hok
        · rename_i ratio hr
          split at hok
          · injection hok with hok
            obtain ⟨h1, h2⟩ := Prod.mk.injEq .. ▸ hok
            subst h1
            simp at he
            exact ⟨ratio, target, by simpa using he⟩
          · injection hok with hok
            obtain ⟨h1, h2⟩ := Prod.mk.injEq .. ▸ hok
            subst h1
            simp at he
    · cases he

/-- A completeness-phase violation is a completeness violation record. -/
theorem completenessPhase_viol_shape {sla : Sla} {keys : List String} {df : DataFrame}
    {v : Violation} (hv : v ∈ (completenessPhase sla keys df).2.2) :
    ∃ a b, v = Violation.completeness a b := by
  unfold completenessPhase at hv
  simp only [] at hv
  split at hv
  · cases hv
  · split at hv
    · rename_i es vs hok
      unfold completenessCheck at hok
      split at hok
      · cases hok
      · split at hok
        · cases hok
        · split at hok
          · injection hok with hok
            obtain ⟨h1, h2⟩ := Prod.mk.injEq .. ▸ hok
            subst h2
            simp at hv
            exact ⟨_, _, by simpa using hv⟩
          · injection hok with hok
            obtain ⟨h1, h2⟩ := Prod.mk.injEq .. ▸ hok
            subst h2
            simp at hv
    · cases hv

/-- A freshness-phase warning is the freshness warning for the stripped
expression. -/
theorem freshnessPhase_warn_shape {sla : Sla} {df : DataFrame} {now : ℚ}
    {w : String} (hw : w ∈ (freshnessPhase sla df now).1) :
    w = freshWarn (pyStrip (sla.freshness.getD (""))) := by
  unfold freshnessPhase at hw
  simp only [] at hw
  split at hw
  · split at hw
    · split at hw
      · cases hw
      · split at hw <;> cases hw
    · simpa using hw
  · cases hw

/-- A freshness-phase error is a no-valid-timestamps or freshness-violation
message. -/
theorem freshnessPhase_err_shape {sla : Sla} {df : DataFrame} {now : ℚ}
    {e : String} (he : e ∈ (freshnessPhase sla df now).2.1) :
    (∃ f, e = noTsMsg f) ∨ ∃ f fr, e = freshViolMsg f fr := by
  unfold freshnessPhase at he
  simp only [] at he
  split at he
  · split at he
    · split at he
      · exact Or.inl ⟨_, by simpa using he⟩
      · split at he
        · exact Or.inr ⟨_, _, by simpa using he⟩
        · cases he
    · cases he
  · cases he

/-- A freshness-phase violation is a freshness violation record. -/
theorem freshnessPhase_viol_shape {sla : Sla} {df : DataFrame} {now : ℚ}
    {v : Violation} (hv : v ∈ (freshnessPhase sla df now).2.2) :
    ∃ a b, v = Violation.freshness a b := by
  unfold freshnessPhase at hv
  simp only [] at hv
  split at hv
  · split at hv
    · split at hv
      · cases hv
      · split at hv
        · exact ⟨_, _, by simpa using hv⟩
        · cases hv
    · cases hv
  · cases hv

/-- The freshness phase reads only the `freshness` and `freshness_field`
entries of the SLA block. -/
theorem freshnessPhase_congr (s1 s2 : Sla) (df : DataFrame) (now : ℚ)
    (h1 : s1.freshness = s2.freshness) (h2 : s1.freshness_field = s2.freshness_field) :
    freshnessPhase s1 df now = freshnessPhase s2 df now := by
  unfold freshnessPhase
  rw [h1, h2]

/-- Unfolding of `validate_rows` on a non-empty schema into its three phase
contributions. -/
theorem validate_rows_components (con : Contract) (rows : List Row) (now : ℚ)
    (h : con.schema ≠ []) :
    validate_rows con rows now =
      ⟨if ((coerceGo con.schema (mkDataFrame rows)).2 ++
            (completenessPhase con.sla (con.schema.map Prod.fst) (coercedDf con rows)).2.1 ++
            (freshnessPhase con.sla (coercedDf con rows) now).2.1) = []
         then ("pass") else ("fail"),
       (completenessPhase con.sla (con.schema.map Prod.fst) (coercedDf con rows)).1 ++
         (freshnessPhase con.sla (coercedDf con rows) now).1,
       (coerceGo con.schema (mkDataFrame rows)).2 ++
         (completenessPhase con.sla (con.schema.map Prod.fst) (coercedDf con rows)).2.1 ++
         (freshnessPhase con.sla (coercedDf con rows) now).2.1,
       (completenessPhase con.sla (con.schema.map Prod.fst) (coercedDf con rows)).2.2 ++
         (freshnessPhase con.sla (coercedDf con rows) now).2.2⟩ := by
  unfold validate_rows coercedDf
  rw [if_neg h]

/-- The coerced dataframe has the columns of the raw dataframe. -/
theorem coercedDf_colNames (con : Contract) (rows : List Row) :
    dfColNames (coercedDf con rows) = dfColNames (mkDataFrame rows) :=
  coerceGo_colNames con.schema (mkDataFrame rows)

/-- Line 53 raises exactly when some required column is absent (for a
non-empty required column list). -/
theorem ratioExc_error_iff (df : DataFrame) (keys : List String) (hkeys : keys ≠ []) :
    ratioExc df keys = .error () ↔
      ¬ (keys.all (fun k => k ∈ dfColNames df) = true) := by
  unfold ratioExc
  rw [if_neg hkeys]
  by_cases hall : (keys.all (fun k => k ∈ dfColNames df)) = true
  · rw [if_pos hall]
    simp [hall]
  · rw [if_neg hall]
    simp [hall]

/-- The completeness `try` body raises exactly when the number parse or the
column selection raises. -/
theorem completenessCheck_error_split (comp : String) (keys : List String)
    (df : DataFrame) :
    completenessCheck comp keys df = .error () ↔
      (parsePyFloat (stripComp comp) = none ∨ ratioExc df keys = .error ()) := by
  unfold completenessCheck
  cases hp : parsePyFloat (stripComp comp) with
  | none => simp
  | some target =>
      simp only []
      cases hr : ratioExc df keys with
      | error e => simp
      | ok ratio =>
          split
          · rename_i e heq
            exact absurd heq (by simp)
          · rename_i r heq
            split <;> simp

/-- The completeness `try` body raises exactly when the expression does not
parse as a number or some required column is absent (for a non-empty required
column list). -/
theorem completenessCheck_error_iff (comp : String) (keys : List String)
    (df : DataFrame) (hkeys : keys ≠ []) :
    completenessCheck comp keys df = .error () ↔
      (parsePyFloat (stripComp comp) = none ∨
        ¬ (keys.all (fun k => k ∈ dfColNames df) = true)) := by
  rw [completenessCheck_error_split comp keys df, ratioExc_error_iff df keys hkeys]

/-- The completeness phase when the expression is present, parses, and all
required columns are present: the epsilon comparison decides between the
violation pair and nothing. -/
theorem completenessPhase_eval {sla : Sla} {keys : List String} {df : DataFrame}
    {target : ℚ}
    (hne : pyStrip (sla.completeness.getD ("")) ≠ "")
    (hpar : parsePyFloat (stripComp (pyStrip (sla.completeness.getD ("")))) = some target)
    (hkeys : keys ≠ [])
    (hall : keys.all (fun k => k ∈ dfColNames df) = true) :
    completenessPhase sla keys df =
      (if completenessRatioQ df keys + epsQ < target then
        ([], [compMsg (completenessRatioQ df keys) target],
         [Violation.completeness (formatQ2 (completenessRatioQ df keys) ++ "%")
            (pyStrip (sla.completeness.getD ("")))])
       else ([], [], [])) := by
  have hr : ratioExc df keys = .ok (completenessRatioQ df keys) := by
    unfold ratioExc
    rw [if_neg hkeys, if_pos hall]
  unfold completenessPhase
  simp only []
  rw [if_neg hne]
  unfold completenessCheck
  rw [hpar, hr]
  dsimp only
  by_cases hlt : completenessRatioQ df keys + epsQ < target
  · rw [if_pos hlt, if_pos hlt]
  · rw [if_neg hlt, if_neg hlt]

/-- The completeness phase when the `try` body raises: one warning, nothing
else. -/
theorem completenessPhase_raise {sla : Sla} {keys : List String} {df : DataFrame}
    (hne : pyStrip (sla.completeness.getD ("")) ≠ "")
    (herr : completenessCheck (pyStrip (sla.completeness.getD (""))) keys df = .error ()) :
    completenessPhase sla keys df =
      ([compWarn (pyStrip (sla.completeness.getD ("")))], [], []) := by
  unfold completenessPhase
  simp only [if_neg hne, herr]

/-- C6: when the completeness target `target` has been parsed and the ratio
`R` (percentage of rows of the coerced dataframe whose declared columns are
all non-null) is computed, the violation triggers if and only if
`R + 1e-9 < target`, in which case the two-decimal error message and the
structured completeness violation record are both appended. -/
theorem C6_completeness_violation (con : Contract) (rows : List Row) (now : ℚ)
    (target R : ℚ)
    (h0 : con.schema ≠ [])
    (hcomp : pyStrip (con.sla.completeness.getD ("")) ≠ "")
    (hpar : parsePyFloat (stripComp (pyStrip (con.sla.completeness.getD ("")))) = some target)
    (hall : (con.schema.map Prod.fst).all
        (fun k => k ∈ dfColNames (mkDataFrame rows)) = true)
    (hR : R = completenessRatioQ (coercedDf con rows) (con.schema.map Prod.fst)) :
    (compMsg R target ∈ (validate_rows con rows now).errors ∧
      Violation.completeness (formatQ2 R ++ "%") (pyStrip (con.sla.completeness.getD ("")))
        ∈ (validate_rows con rows now).violations) ↔
      R + epsQ < target := by
  subst hR
  have hkeys : con.schema.map Prod.fst ≠ [] := by simpa using h0
  have hall' : (con.schema.map Prod.fst).all
      (fun k => k ∈ dfColNames (coercedDf con rows)) = true := by
    rw [coercedDf_colNames]; exact hall
  have hphase := completenessPhase_eval hcomp hpar hkeys hall'
  rw [validate_rows_components con rows now h0]
  constructor
  · rintro ⟨_, hviol⟩
    by_cases hlt : completenessRatioQ (coercedDf con rows) (con.schema.map Prod.fst)
        + epsQ < target
    · exact hlt
    · exfalso
      rw [hphase, if_neg hlt] at hviol
      simp only [List.nil_append] at hviol
      obtain ⟨a, b, hv⟩ := freshnessPhase_viol_shape hviol
      cases hv
  · intro hlt
    rw [hphase, if_pos hlt]
    simp

/-- C10: with a non-empty schema and a parseable completeness expression, if
the row set is empty or no declared schema column occurs in any row, the
completeness warning is appended even though the expression parses, and no
completeness violation is recorded: `df[required_cols]` raises a `KeyError`
inside the `try` block before any comparison happens. -/
theorem C10_completeness_keyerror (con : Contract) (rows : List Row) (now : ℚ)
    (target : ℚ)
    (h0 : con.schema ≠ [])
    (hcomp : pyStrip (con.sla.completeness.getD ("")) ≠ "")
    (_hpar : parsePyFloat (stripComp (pyStrip (con.sla.completeness.getD ("")))) = some target)
    (hnone : rows = [] ∨ ∀ k ∈ con.schema.map Prod.fst, k ∉ dfColNames (mkDataFrame rows)) :
    compWarn (pyStrip (con.sla.completeness.getD ("")))
        ∈ (validate_rows con rows now).warnings ∧
    ∀ v ∈ (validate_rows con rows now).violations, v.dimension ≠ "completeness" := by
  have hkeys : con.schema.map Prod.fst ≠ [] := by simpa using h0
  have hno : ∀ k ∈ con.schema.map Prod.fst, k ∉ dfColNames (mkDataFrame rows) := by
    rcases hnone with h | h
    · subst h
      intro k _ hk
      simp [mkDataFrame, dfColNames, rowKeys] at hk
    · exact h
  have hnall : ¬ ((con.schema.map Prod.fst).all
      (fun k => k ∈ dfColNames (coercedDf con rows)) = true) := by
    rw [coercedDf_colNames]
    obtain ⟨k, hk⟩ := List.exists_mem_of_ne_nil _ hkeys
    intro hall
    exact hno k hk (by simpa using List.all_eq_true.mp hall k hk)
  have herr : completenessCheck (pyStrip (con.sla.completeness.getD ("")))
      (con.schema.map Prod.fst) (coercedDf con rows) = .error () :=
    (completenessCheck_error_iff _ _ _ hkeys).mpr (Or.inr hnall)
  have hphase := completenessPhase_raise hcomp herr
  rw [validate_rows_components con rows now h0, hphase]
  refine ⟨by simp, ?_⟩
  intro v hv
  simp only [List.nil_append] at hv
  obtain ⟨a, b, hfv⟩ := freshnessPhase_viol_shape hv
  subst hfv
  simp [Violation.dimension]

/-- Witness for C6 at a violating instance: two rows of which one is null,
ratio 50 percent against target 80 percent. -/
theorem C6_completeness_violation_witness :
    (compMsg 50 80 ∈ (validate_rows ⟨[("a", "string")], ⟨some (">=80%"), none, none⟩⟩
        [[("a", Value.null)], [("a", Value.str "x")]] 0).errors ∧
      Violation.completeness (formatQ2 50 ++ "%") (pyStrip (">=80%"))
        ∈ (validate_rows ⟨[("a", "string")], ⟨some (">=80%"), none, none⟩⟩
            [[("a", Value.null)], [("a", Value.str "x")]] 0).violations) ↔
      (50 : ℚ) + epsQ < 80 :=
  C6_completeness_violation ⟨[("a", "string")], ⟨some (">=80%"), none, none⟩⟩
    [[("a", Value.null)], [("a", Value.str "x")]] 0 80 50
    (by decide) (by decide) (by with_unfolding_all rfl) (by decide)
    (by with_unfolding_all rfl)

/-- Witness for C10 at a concrete contract with a parseable expression and an
empty row set. -/
theorem C10_completeness_keyerror_witness :
    compWarn (pyStrip (">=95%"))
        ∈ (validate_rows ⟨[("a", "string")], ⟨some (">=95%"), none, none⟩⟩ [] 0).warnings ∧
    ∀ v ∈ (validate_rows ⟨[("a", "string")], ⟨some (">=95%"), none, none⟩⟩ [] 0).violations,
      v.dimension ≠ "completeness" :=
  C10_completeness_keyerror ⟨[("a", "string")], ⟨some (">=95%"), none, none⟩⟩ [] 0 95
    (by decide) (by decide) (by with_unfolding_all rfl) (Or.inl rfl)

/-! ## The completeness warning appears exactly when the try block raises -/

/-- The completeness phase emits no warning when its `try` body succeeds. -/
theorem completenessPhase_warn_ok {sla : Sla} {keys : List String} {df : DataFrame}
    {es : List String} {vs : List Violation}
    (hok : completenessCheck (pyStrip (sla.completeness.getD (""))) keys df = .ok (es, vs)) :
    (completenessPhase sla keys df).1 = [] := by
  unfold completenessPhase
  simp only []
  by_cases hne : pyStrip (sla.completeness.getD ("")) = ""
  · rw [if_pos hne]
  · rw [if_neg hne, hok]

/-- The completeness phase with no completeness entry does nothing. -/
theorem completenessPhase_none (keys : List String) (df : DataFrame)
    (fr ff : Option String) :
    completenessPhase ⟨none, fr, ff⟩ keys df = ([], [], []) := by
  unfold completenessPhase
  simp only []
  rw [if_pos (by decide)]

/-- C5 (amended): with a non-empty schema and a present completeness
expression, the completeness warning is in the verdict exactly when the `try`
body raises — the expression fails to parse as a number or some declared
column is absent from the row set — and in that case the verdict is the one
the same contract without the completeness entry would get, except for the
added warning: no error, no violation and no status change can come from a
malformed completeness SLA. -/
theorem C5_amended (con : Contract) (rows : List Row) (now : ℚ)
    (h0 : con.schema ≠ [])
    (hcomp : pyStrip (con.sla.completeness.getD ("")) ≠ "") :
    (compWarn (pyStrip (con.sla.completeness.getD ("")))
        ∈ (validate_rows con rows now).warnings ↔
      (parsePyFloat (stripComp (pyStrip (con.sla.completeness.getD ("")))) = none ∨
        ¬ ((con.schema.map Prod.fst).all
            (fun k => k ∈ dfColNames (mkDataFrame rows)) = true))) ∧
    ((parsePyFloat (stripComp (pyStrip (con.sla.completeness.getD ("")))) = none ∨
        ¬ ((con.schema.map Prod.fst).all
            (fun k => k ∈ dfColNames (mkDataFrame rows)) = true)) →
      validate_rows con rows now =
        { validate_rows ⟨con.schema, ⟨none, con.sla.freshness, con.sla.freshness_field⟩⟩
            rows now with
          warnings := compWarn (pyStrip (con.sla.completeness.getD (""))) ::
            (validate_rows ⟨con.schema, ⟨none, con.sla.freshness, con.sla.freshness_field⟩⟩
              rows now).warnings }) := by
  have hkeys : con.schema.map Prod.fst ≠ [] := by simpa using h0
  have herr_iff : completenessCheck (pyStrip (con.sla.completeness.getD ("")))
      (con.schema.map Prod.fst) (coercedDf con rows) = .error () ↔
      (parsePyFloat (stripComp (pyStrip (con.sla.completeness.getD ("")))) = none ∨
        ¬ ((con.schema.map Prod.fst).all
            (fun k => k ∈ dfColNames (mkDataFrame rows)) = true)) := by
    rw [completenessCheck_error_iff _ _ _ hkeys, coercedDf_colNames]
  constructor
  · constructor
    · intro hw
      rw [validate_rows_components con rows now h0] at hw
      rcases List.mem_append.mp hw with h2 | h3
      · cases hck : completenessCheck (pyStrip (con.sla.completeness.getD ("")))
            (con.schema.map Prod.fst) (coercedDf con rows) with
        | error u =>
            cases u
            exact herr_iff.mp hck
        | ok p =>
            obtain ⟨es, vs⟩ := p
            rw [completenessPhase_warn_ok hck] at h2
            cases h2
      · exact absurd (freshnessPhase_warn_shape h3) (compWarn_ne_freshWarn _ _)
    · intro hcond
      have herr := herr_iff.mpr hcond
      rw [validate_rows_components con rows now h0,
          completenessPhase_raise hcomp herr]
      simp
  · intro hcond
    have herr := herr_iff.mpr hcond
    have h0' : (Contract.mk con.schema ⟨none, con.sla.freshness, con.sla.freshness_field⟩).schema ≠ [] := h0
    rw [validate_rows_components con rows now h0,
        validate_rows_components _ rows now h0',
        completenessPhase_raise hcomp herr]
    have hfr2 : freshnessPhase (Sla.mk none con.sla.freshness con.sla.freshness_field)
        ((coerceGo con.schema (mkDataFrame rows)).1) now =
        freshnessPhase con.sla ((coerceGo con.schema (mkDataFrame rows)).1) now :=
      freshnessPhase_congr _ _ _ _ rfl rfl
    simp [completenessPhase_none, coercedDf, hfr2]

/-! ## The freshness warning appears exactly when the prefix match fails -/

/-- When the freshness guard holds, the freshness warnings are exactly the
parse-failure warning. -/
theorem freshnessPhase_warn_iff {sla : Sla} {df : DataFrame} (now : ℚ)
    (hfr : pyStrip (sla.freshness.getD ("")) ≠ "")
    (hff : pyStrip (sla.freshness_field.getD ("")) ≠ "")
    (hcol : pyStrip (sla.freshness_field.getD ("")) ∈ dfColNames df) :
    (freshnessPhase sla df now).1 =
      (match matchFreshness (pyStrip (sla.freshness.getD (""))) with
       | none => [freshWarn (pyStrip (sla.freshness.getD ("")))]
       | some _ => []) := by
  unfold freshnessPhase
  simp only []
  rw [if_pos ⟨hfr, hff, hcol⟩]
  cases hm : matchFreshness (pyStrip (sla.freshness.getD (""))) with
  | none => rfl
  | some p =>
      obtain ⟨amount, unit⟩ := p
      dsimp only
      split
      · rfl
      · split <;> rfl

/-- A successful freshness match yields one of the four unit letters. -/
theorem matchFreshness_unit {s : String} {a : Nat} {u : Char}
    (h : matchFreshness s = some (a, u)) :
    u = 's' ∨ u = 'm' ∨ u = 'h' ∨ u = 'd' := by
  unfold matchFreshness at h
  simp only [] at h
  split at h
  · cases h
  · split at h
    · split at h
      · rename_i hc
        injection h with h
        obtain ⟨-, h2⟩ := Prod.mk.injEq .. ▸ h
        subst h2
        simpa using hc
      · cases h
    · cases h

/-- C7 (amended): when the freshness guard holds, the freshness warning is in
the verdict exactly when the expression has no prefix of the form digits,
optional whitespace, unit letter (trailing characters are ignored), and an
accepted expression always carries one of the four unit letters `s,m,h,d`
whose second count `unitSeconds` feeds the threshold. -/
theorem C7_amended (con : Contract) (rows : List Row) (now : ℚ)
    (h0 : con.schema ≠ [])
    (hfr : pyStrip (con.sla.freshness.getD ("")) ≠ "")
    (hff : pyStrip (con.sla.freshness_field.getD ("")) ≠ "")
    (hcol : pyStrip (con.sla.freshness_field.getD ("")) ∈ dfColNames (mkDataFrame rows)) :
    (freshWarn (pyStrip (con.sla.freshness.getD ("")))
        ∈ (validate_rows con rows now).warnings ↔
      matchFreshness (pyStrip (con.sla.freshness.getD (""))) = none) ∧
    (∀ a u, matchFreshness (pyStrip (con.sla.freshness.getD (""))) = some (a, u) →
      u = 's' ∨ u = 'm' ∨ u = 'h' ∨ u = 'd') := by
  have hcol' : pyStrip (con.sla.freshness_field.getD ("")) ∈ dfColNames (coercedDf con rows) := by
    rw [coercedDf_colNames]; exact hcol
  have hwiff := freshnessPhase_warn_iff now hfr hff hcol'
  refine ⟨?_, fun a u h => matchFreshness_unit h⟩
  constructor
  · intro hw
    rw [validate_rows_components con rows now h0] at hw
    rcases List.mem_append.mp hw with h2 | h3
    · exact absurd (completenessPhase_warn_shape h2) (compWarn_ne_freshWarn _ _).symm
    · rw [hwiff] at h3
      cases hm : matchFreshness (pyStrip (con.sla.freshness.getD (""))) with
      | none => rfl
      | some p =>
          rw [hm] at h3
          cases h3
  · intro hm
    rw [validate_rows_components con rows now h0]
    rw [List.mem_append]
    right
    rw [hwiff, hm]
    simp

/-! ## The coercion loop and where its error messages come from -/

/-- One-step unfolding of the coercion loop. -/
theorem coerceGo_cons (e : String × String) (rest : List (String × String))
    (df : DataFrame) :
    coerceGo (e :: rest) df =
      ((coerceGo rest (entryStep df e.1 e.2).1).1,
       (entryStep df e.1 e.2).2 ++ (coerceGo rest (entryStep df e.1 e.2).1).2) := rfl

/-- The exception text of a failed non-datetime cast has one of the three
modelled pandas shapes. -/
theorem astypeNonDt_error {pdt : String} {vs : List Value} {ex : String}
    (h : astypeNonDt pdt vs = .error ex) :
    ex = bexc ∨ ex = iexc ∨ ∃ s, ex = fexc s := by
  unfold astypeNonDt at h
  split at h
  · split at h
    · exact Or.inl (by injection h with h; exact h.symm)
    · simp at h
  · split at h
    · split at h
      · exact Or.inr (Or.inl (by injection h with h; exact h.symm))
      · simp at h
    · split at h
      · split at h
        · rename_i s hs
          exact Or.inr (Or.inr ⟨s, by injection h with h; exact h.symm⟩)
        · simp at h
      · simp at h

/-- Everything one loop iteration can append: the missing-column message, the
invalid-datetime message (with the condition that made it fire), or a
failed-coercion message (with the cast failure that produced it). -/
theorem entryStep_mem_cases {df : DataFrame} {c t m : String}
    (hm : m ∈ (entryStep df c t).2) :
    m = missMsg c ∨
    (m = dtMsg c ∧ ((getCol df c).map toDt).any isna = true) ∨
    (∃ pdt ex, m = failMsg c pdt ex ∧ astypeNonDt pdt (getCol df c) = .error ex) := by
  rw [entryStep_snd] at hm
  split at hm
  · unfold entryErrsPure at hm
    simp only [] at hm
    split at hm
    · split at hm
      · rename_i hany
        exact Or.inr (Or.inl ⟨by simpa using hm, hany⟩)
      · cases hm
    · split at hm
      · cases hm
      · rename_i ex hast
        exact Or.inr (Or.inr ⟨_, ex, by simpa using hm, hast⟩)
  · exact Or.inl (by simpa using hm)

/-- Whatever a nodup schema's loop appends for the entry of a present column
is in the loop's error output. -/
theorem coerceGo_entry_sub {l : List (String × String)} {df : DataFrame} {c t : String}
    (hnd : (l.map Prod.fst).Nodup) (hmem : (c, t) ∈ l) (hcol : c ∈ dfColNames df)
    {m : String} (hm : m ∈ entryErrsPure c t (getCol df c)) :
    m ∈ (coerceGo l df).2 := by
  induction l generalizing df with
  | nil => cases hmem
  | cons e rest ih =>
      rw [coerceGo_cons]
      rcases List.mem_cons.mp hmem with heq | hmem'
      · subst heq
        refine List.mem_append_left _ ?_
        rw [entryStep_snd]
        rw [if_pos hcol]
        exact hm
      · have hcrest : c ∈ rest.map Prod.fst := List.mem_map_of_mem Prod.fst hmem'
        have hhead : e.1 ∉ rest.map Prod.fst := (List.nodup_cons.mp (by simpa using hnd)).1
        have hne : c ≠ e.1 := fun hcc => hhead (hcc ▸ hcrest)
        have hcol' : c ∈ dfColNames (entryStep df e.1 e.2).1 := by
          rw [entryStep_colNames]; exact hcol
        have hm' : m ∈ entryErrsPure c t (getCol (entryStep df e.1 e.2).1 c) := by
          rw [entryStep_getCol_ne df e.1 e.2 c hne]; exact hm
        exact List.mem_append_right _
          (ih (List.nodup_cons.mp (by simpa using hnd)).2 hmem' hcol' hm')

/-- Only an entry for column `c` can put the invalid-datetime message for `c`
into the loop's errors. -/
theorem coerceGo_dtMsg_origin {l : List (String × String)} {df : DataFrame} {c : String}
    (hm : dtMsg c ∈ (coerceGo l df).2) : c ∈ l.map Prod.fst := by
  induction l generalizing df with
  | nil => simp [coerceGo] at hm
  | cons e rest ih =>
      rw [coerceGo_cons] at hm
      rcases List.mem_append.mp hm with h1 | h2
      · rcases entryStep_mem_cases h1 with hmiss | ⟨heq, -⟩ | ⟨pdt, ex, heq, hast⟩
        · exact absurd hmiss (dtMsg_ne_missMsg _ _)
        · rw [List.map_cons, dtMsg_inj heq]
          exact List.mem_cons_self _ _
        · exact absurd heq (dtMsg_ne_failMsg _ _ _ _ (astypeNonDt_error hast))
      · rw [List.map_cons]
        exact List.mem_cons_of_mem _ (ih h2)

/-- If the loop over a nodup schema emitted the invalid-datetime message for
`c`, then the datetime conversion of `c`'s original values has a missing
entry. -/
theorem coerceGo_dtMsg {l : List (String × String)} {df : DataFrame} {c : String}
    (hnd : (l.map Prod.fst).Nodup)
    (hm : dtMsg c ∈ (coerceGo l df).2) :
    ((getCol df c).map toDt).any isna = true := by
  induction l generalizing df with
  | nil => simp [coerceGo] at hm
  | cons e rest ih =>
      rw [coerceGo_cons] at hm
      rcases List.mem_append.mp hm with h1 | h2
      · rcases entryStep_mem_cases h1 with hmiss | ⟨heq, hany⟩ | ⟨pdt, ex, heq, hast⟩
        · exact absurd hmiss (dtMsg_ne_missMsg _ _)
        · rw [dtMsg_inj heq]
          exact hany
        · exact absurd heq (dtMsg_ne_failMsg _ _ _ _ (astypeNonDt_error hast))
      · by_cases hce : c = e.1
        · exfalso
          have hc := coerceGo_dtMsg_origin h2
          have hhead : e.1 ∉ rest.map Prod.fst := (List.nodup_cons.mp (by simpa using hnd)).1
          exact hhead (hce ▸ hc)
        · rw [← entryStep_getCol_ne df e.1 e.2 c hce]
          exact ih (List.nodup_cons.mp (by simpa using hnd)).2 h2

/-- C3 (amended): for a declared datetime/timestamp/date column present in
the row set (schema keys distinct), the invalid-datetime error is in the
verdict exactly when the converted column has a missing entry — including the
case where the raw value was already null, missing or empty, because the
source tests `isna().any()` on the converted column only. -/
theorem C3_amended (con : Contract) (rows : List Row) (now : ℚ) (c t : String)
    (hnd : (con.schema.map Prod.fst).Nodup)
    (hmem : (c, t) ∈ con.schema)
    (hdt : _pandas_dtype_for t = "datetime64[ns]")
    (hcol : c ∈ dfColNames (mkDataFrame rows)) :
    dtMsg c ∈ (validate_rows con rows now).errors ↔
      ((getCol (mkDataFrame rows) c).map toDt).any isna = true := by
  have h0 : con.schema ≠ [] := List.ne_nil_of_mem hmem
  rw [validate_rows_components con rows now h0]
  constructor
  · intro hm
    simp only [List.mem_append] at hm
    rcases hm with (h1 | h2) | h3
    · exact coerceGo_dtMsg hnd h1
    · obtain ⟨r, tt, hc⟩ := completenessPhase_err_shape h2
      exact absurd hc (dtMsg_ne_compMsg _ _ _)
    · rcases freshnessPhase_err_shape h3 with ⟨f, hc⟩ | ⟨f, fr, hc⟩
      · exact absurd hc (dtMsg_ne_noTsMsg _ _)
      · exact absurd hc (dtMsg_ne_freshViolMsg _ _ _)
  · intro hany
    have hme : dtMsg c ∈ entryErrsPure c t (getCol (mkDataFrame rows) c) := by
      unfold entryErrsPure
      simp only []
      rw [if_pos hdt, if_pos hany]
      exact List.mem_singleton.mpr rfl
    have hsub := coerceGo_entry_sub hnd hmem hcol hme
    simp only [List.mem_append]
    exact Or.inl (Or.inl hsub)

/-- Witness for C3 (amended) at a datetime column holding one unparsable
string. -/
theorem C3_amended_witness :
    dtMsg ("ts") ∈ (validate_rows ⟨[("ts", "datetime")], ⟨none, none, none⟩⟩
        [[("ts", Value.str "x")]] 0).errors ↔
      ((getCol (mkDataFrame [[("ts", Value.str "x")]]) ("ts")).map toDt).any isna = true :=
  C3_amended ⟨[("ts", "datetime")], ⟨none, none, none⟩⟩ [[("ts", Value.str "x")]] 0
    ("ts") ("datetime") (by decide) (by decide) (by decide) (by decide)

/-- C4 (amended): a declared boolean column present in the row set that holds
a value that is not bool-like makes the whole-column cast raise, and the
verdict records the corresponding coercion error — the failure is not a
silent null. -/
theorem C4_amended (con : Contract) (rows : List Row) (now : ℚ) (c t : String)
    (hnd : (con.schema.map Prod.fst).Nodup)
    (hmem : (c, t) ∈ con.schema)
    (hb : _pandas_dtype_for t = "boolean")
    (hcol : c ∈ dfColNames (mkDataFrame rows))
    (hbad : (getCol (mkDataFrame rows) c).any (fun v => !(isBoolLike v)) = true) :
    failMsg c ("boolean") bexc ∈ (validate_rows con rows now).errors := by
  have h0 : con.schema ≠ [] := List.ne_nil_of_mem hmem
  have hast : astypeNonDt ("boolean") (getCol (mkDataFrame rows) c) = .error bexc := by
    unfold astypeNonDt
    rw [if_pos rfl, if_pos hbad]
  have hme : failMsg c ("boolean") bexc ∈ entryErrsPure c t (getCol (mkDataFrame rows) c) := by
    unfold entryErrsPure
    simp only []
    rw [hb]
    rw [if_neg (by decide), hast]
    exact List.mem_singleton.mpr rfl
  have hsub := coerceGo_entry_sub hnd hmem hcol hme
  rw [validate_rows_components con rows now h0]
  simp only [List.mem_append]
  exact Or.inl (Or.inl hsub)

/-- Witness for C4 (amended) at a boolean column holding the string
`"maybe"`. -/
theorem C4_amended_witness :
    failMsg ("flag") ("boolean") bexc ∈
      (validate_rows ⟨[("flag", "bool")], ⟨none, none, none⟩⟩
        [[("flag", Value.str "maybe")]] 0).errors :=
  C4_amended ⟨[("flag", "bool")], ⟨none, none, none⟩⟩ [[("flag", Value.str "maybe")]] 0
    ("flag") ("bool") (by decide) (by decide) (by decide) (by decide) (by decide)

/-- Witness for C5 (amended) at a parseable expression over an empty row
set. -/
theorem C5_amended_witness :
    (compWarn (pyStrip (">=95%"))
        ∈ (validate_rows ⟨[("a", "string")], ⟨some (">=95%"), none, none⟩⟩ [] 0).warnings ↔
      (parsePyFloat (stripComp (pyStrip (">=95%"))) = none ∨
        ¬ (([("a", "string")].map Prod.fst).all
            (fun k => k ∈ dfColNames (mkDataFrame [])) = true))) ∧
    ((parsePyFloat (stripComp (pyStrip (">=95%"))) = none ∨
        ¬ (([("a", "string")].map Prod.fst).all
            (fun k => k ∈ dfColNames (mkDataFrame [])) = true)) →
      validate_rows ⟨[("a", "string")], ⟨some (">=95%"), none, none⟩⟩ [] 0 =
        { validate_rows ⟨[("a", "string")], ⟨none, none, none⟩⟩ [] 0 with
          warnings := compWarn (pyStrip (">=95%")) ::
            (validate_rows ⟨[("a", "string")], ⟨none, none, none⟩⟩ [] 0).warnings }) :=
  C5_amended ⟨[("a", "string")], ⟨some (">=95%"), none, none⟩⟩ [] 0 (by decide) (by decide)

/-- Witness for C7 (amended) at the accepted expression `"2m"`. -/
theorem C7_amended_witness :
    (freshWarn (pyStrip ("2m"))
        ∈ (validate_rows ⟨[("ts", "string")], ⟨none, some ("2m"), some ("ts")⟩⟩
            [[("ts", Value.null)]] 0).warnings ↔
      matchFreshness (pyStrip ("2m")) = none) ∧
    (∀ a u, matchFreshness (pyStrip ("2m")) = some (a, u) →
      u = 's' ∨ u = 'm' ∨ u = 'h' ∨ u = 'd') :=
  C7_amended ⟨[("ts", "string")], ⟨none, some ("2m"), some ("ts")⟩⟩ [[("ts", Value.null)]] 0
    (by decide) (by decide) (by decide) (by decide)

end Contractus
